import Mathlib

/-!
Verification development for `implementing_alexnet_with_tensorflow.py`.

The script is a linear TensorFlow/Keras program.  We shallowly embed the
parts of it written in this repository: the tensor preprocessing pipeline
(`tf.pad`, division by 255, `tf.expand_dims`, `tf.repeat`), the
validation split by Python slicing, the declared `Sequential` model
architecture, the hyperparameters handed to `model.fit`, the plotting
calls, and the script's statement sequence (for exception propagation).
Tensors are nested lists; 8-bit pixels are `Nat`; scaled pixels are `ℚ`.
-/

/-- A raw MNIST image as loaded: a 28×28 grid of 8-bit values (`Nat`). -/
abbrev RawImage : Type := List (List ℕ)

/-- A grayscale image after the division by 255: rational entries. -/
abbrev QImage : Type := List (List ℚ)

/-- A rank-3 tensor (height × width × channels) of rationals. -/
abbrev Tensor3 : Type := List (List (List ℚ))

/-- One row of `tf.pad` with paddings `[2,2]` on the last axis:
two zeros on each side of the row (source line 33: `[2,2]` for axis 2). -/
def rowPad2 (r : List ℕ) : List ℕ :=
  List.replicate 2 0 ++ r ++ List.replicate 2 0

/-- `tf.pad(img, [[2,2],[2,2]])` on one image (the `[[0,0],…]` batch axis
of source lines 33–34 is the surrounding `List.map`): two all-zero rows
above and below, and each row padded by `rowPad2`.  The width of the new
zero rows is the first row's width plus 4, as for a rectangular tensor. -/
def padImage (img : RawImage) : RawImage :=
  let w := ((img.head?.map List.length).getD 0) + 4
  List.replicate 2 (List.replicate w 0)
    ++ img.map rowPad2
    ++ List.replicate 2 (List.replicate w 0)

/-- The `/ 255` of source lines 33–34, applied pointwise to one image. -/
def scaleImage (img : RawImage) : QImage :=
  img.map (fun r => r.map (fun (p : ℕ) => (p : ℚ) / 255))

/-- `tf.expand_dims(x, axis=3)` on one image (source lines 36–37): every
pixel becomes a singleton channel list. -/
def expandLast (img : QImage) : Tensor3 :=
  img.map (fun r => r.map (fun q => [q]))

/-- `tf.repeat(x, n, axis=3)` on one image (source lines 39–40): every
entry along the channel axis is repeated `n` times in place. -/
def repeatLast (n : ℕ) (t : Tensor3) : Tensor3 :=
  t.map (fun r => r.map (fun c => c.flatMap (List.replicate n)))

/-- The whole per-image preprocessing pipeline of source lines 33–40:
pad by 2 on each spatial side, divide by 255, add a channel axis,
repeat the channel 3 times. -/
def preprocessImage (img : RawImage) : Tensor3 :=
  repeatLast 3 (expandLast (scaleImage (padImage img)))

/-- Lines 33–34 applied to the batch: `tf.pad` with `[[0,0],[2,2],[2,2]]`
leaves the batch axis alone, so it maps `padImage` over the images. -/
def padBatch (xs : List RawImage) : List RawImage :=
  xs.map padImage

/-- The `/ 255` of lines 33–34 on the whole (padded) batch. -/
def scaleBatch (xs : List RawImage) : List QImage :=
  xs.map scaleImage

/-- Lines 36–37 on the batch: `tf.expand_dims(x, axis=3)`. -/
def expandBatch (xs : List QImage) : List Tensor3 :=
  xs.map expandLast

/-- Lines 39–40 on the batch: `tf.repeat(x, 3, axis=3)`. -/
def repeatBatch (xs : List Tensor3) : List Tensor3 :=
  xs.map (repeatLast 3)

/-- The full preprocessing of lines 33–40 on a batch. -/
def preprocessBatch (xs : List RawImage) : List Tensor3 :=
  repeatBatch (expandBatch (scaleBatch (padBatch xs)))

/-- Python/TensorFlow slicing `x[-2000:]` generalised: the last `k`
elements (all of `xs` when it is shorter than `k`, as Python clamps). -/
def takeLast (k : ℕ) (xs : List α) : List α :=
  xs.drop (xs.length - k)

/-- Python/TensorFlow slicing `x[:-2000]` generalised: everything except
the last `k` elements (empty when `xs` is shorter than `k`). -/
def dropLastN (k : ℕ) (xs : List α) : List α :=
  xs.take (xs.length - k)

/-- `img` is an `h × w` rectangular grid. -/
def rect2 (img : List (List α)) (h w : ℕ) : Prop :=
  img.length = h ∧ ∀ r ∈ img, r.length = w

/-- `t` is an `h × w × c` rectangular rank-3 tensor. -/
def rect3 (t : List (List (List α))) (h w c : ℕ) : Prop :=
  t.length = h ∧ ∀ r ∈ t, r.length = w ∧ ∀ ch ∈ r, ch.length = c

instance (img : List (List α)) (h w : ℕ) : Decidable (rect2 img h w) := by
  unfold rect2; infer_instance

instance (t : List (List (List α))) (h w c : ℕ) : Decidable (rect3 t h w c) := by
  unfold rect3; infer_instance

/-- The `(height, width, channels)` triple `t.shape` of a rank-3 tensor,
reading each extent off the first element, as TensorFlow's static shape
does for rectangular data. -/
def tensorShape3 (t : Tensor3) : ℕ × ℕ × ℕ :=
  (t.length,
   (t.head?.map List.length).getD 0,
   ((t.head?.bind List.head?).map List.length).getD 0)

/-- Entry of a rank-2 grid at row `i`, column `j` (as an `Option`). -/
def entry2 (img : List (List α)) (i j : ℕ) : Option α :=
  img[i]?.bind (fun r => r[j]?)

/-- A degenerate concrete tensor, used to instantiate the split theorems
on concrete batches. -/
def emptyTensor : Tensor3 := []

/-- Activation functions named in the script (`'relu'`, `'softmax'`). -/
inductive Act where
  | relu
  | softmax
deriving DecidableEq, Repr

/-- The Keras layer constructors the script invokes (source lines 68–96),
with the arguments the script passes.  `lrn` stands for the
`layers.Lambda(tf.nn.local_response_normalization)` wrapper. -/
inductive Layer where
  | resizing (height width : ℕ) (interpolation : String) (inputShape : ℕ × ℕ × ℕ)
  | conv2D (filters kernelSize strides : ℕ) (padding : String)
  | lrn
  | activation (a : Act)
  | maxPooling2D (poolSize strides : ℕ)
  | flatten
  | dense (units : ℕ) (a : Act)
  | dropout (rate : ℚ)
deriving DecidableEq, Repr

/-- The ordered `Sequential` stack built by source lines 67–96, as a
function of the `input_shape` argument of its first layer (in the script
that argument is `x_train.shape[1:]`). -/
def buildModel (s : ℕ × ℕ × ℕ) : List Layer :=
  [ Layer.resizing 224 224 "bilinear" s,
    Layer.conv2D 96 11 4 "same",
    Layer.lrn,
    Layer.activation Act.relu,
    Layer.maxPooling2D 3 2,
    Layer.conv2D 256 5 4 "same",
    Layer.lrn,
    Layer.activation Act.relu,
    Layer.maxPooling2D 3 2,
    Layer.conv2D 384 3 4 "same",
    Layer.activation Act.relu,
    Layer.conv2D 384 3 4 "same",
    Layer.activation Act.relu,
    Layer.conv2D 256 3 4 "same",
    Layer.activation Act.relu,
    Layer.flatten,
    Layer.dense 4096 Act.relu,
    Layer.dropout (1/2),
    Layer.dense 4096 Act.relu,
    Layer.dropout (1/2),
    Layer.dense 10 Act.softmax ]

/-- The `input_shape` the script passes to the first layer: the per-image
shape `x_train.shape[1:]` of the preprocessed training batch (read off the
first image, as for rectangular data). -/
def scriptInputShape (xs : List Tensor3) : ℕ × ℕ × ℕ :=
  ((xs.head?.map tensorShape3).getD (0, 0, 0))

/-- The `input_shape` declared by a model's first layer, when that first
layer is a resizing layer carrying one (source line 68). -/
def declaredInputShape (m : List Layer) : Option (ℕ × ℕ × ℕ) :=
  match m.head? with
  | some (Layer.resizing _ _ _ s) => some s
  | _ => none

/-- The filter counts of the convolutional layers of a model, in order. -/
def convFilters (m : List Layer) : List ℕ :=
  m.filterMap (fun l => match l with
    | Layer.conv2D f _ _ _ => some f
    | _ => none)

/-- The `(units, activation)` pairs of the dense layers of a model, in
order. -/
def denseUnits (m : List Layer) : List (ℕ × Act) :=
  m.filterMap (fun l => match l with
    | Layer.dense u a => some (u, a)
    | _ => none)

/-- The dropout rates of a model, in order. -/
def dropoutRates (m : List Layer) : List ℚ :=
  m.filterMap (fun l => match l with
    | Layer.dropout r => some r
    | _ => none)

/-- The arguments source line 106 passes to `model.fit`. -/
structure FitConfig where
  batchSize : ℕ
  epochs : ℕ
deriving DecidableEq, Repr

/-- `model.fit(x_train, y_train, batch_size=64, epochs=40, …)`. -/
def scriptFitConfig : FitConfig :=
  { batchSize := 64, epochs := 40 }

/-- The per-epoch trace of a fixed-epoch training loop: starting from
state `s0`, apply the epoch step `epochs` times and record the state at
the end of each epoch.  The epoch count is a constant of the
recursion — nothing about the state can stop it early. -/
def fitTrace (step : S → S) : ℕ → S → List S
  | 0, _ => []
  | n + 1, s => step s :: fitTrace step n (step s)

/-- The metric series the trainer's history records for this `fit` call:
the loss, the metric `'accuracy'` of `model.compile` (line 104), and
their validation counterparts since `validation_data` is passed. -/
def recordedKeys : List String :=
  ["loss", "accuracy", "val_accuracy", "val_loss"]

/-- The plotting calls of source lines 111–118, in program order: each is
`(subplot index, history key plotted)`.  Lines 113–116 and 119–122 set
titles, labels and legends; they plot no data series. -/
def scriptPlotCalls : List (ℕ × String) :=
  [(0, "loss"), (0, "val_loss"), (1, "accuracy"), (1, "val_accuracy")]

/-- The framework calls the script's statements make, in program order
(source lines 31–122).  The vocabulary also has `evaluate` for Keras's
`model.evaluate`, so that its absence from the script is expressible. -/
inductive Step where
  | loadData
  | padTrain
  | padTest
  | expandTrain
  | expandTest
  | repeatTrain
  | repeatTest
  | splitVal
  | buildModel
  | summary
  | compile
  | fit
  | plot
  | evaluate
deriving DecidableEq, Repr

/-- The script's statement sequence (lines 31–122): load, preprocess
train and test, split off validation, build, summarise, compile, fit,
plot.  No statement calls `evaluate`. -/
def scriptSteps : List Step :=
  [ Step.loadData,
    Step.padTrain, Step.padTest,
    Step.expandTrain, Step.expandTest,
    Step.repeatTrain, Step.repeatTest,
    Step.splitVal,
    Step.buildModel, Step.summary, Step.compile,
    Step.fit, Step.plot ]

/-- Sequential execution of a statement list under a semantics `sem` that
may fail: the script installs no handler, so the first error aborts the
run and is returned as is. -/
def runSeq (sem : α → Except ε Unit) : List α → Except ε Unit
  | [] => Except.ok ()
  | s :: rest =>
    match sem s with
    | Except.error e => Except.error e
    | Except.ok _ => runSeq sem rest

/-- Running the whole script under a fallible framework semantics. -/
def runScript (sem : Step → Except ε Unit) : Except ε Unit :=
  runSeq sem scriptSteps

/-! ## Helper lemmas -/

/-- A fixed-epoch loop's trace has exactly one entry per epoch, whatever
the epoch step does to the state. -/
theorem fitTrace_length (step : S → S) :
    ∀ (n : ℕ) (s0 : S), (fitTrace step n s0).length = n := by
  intro n
  induction n with
  | zero => intro s0; rfl
  | succ m ih => intro s0; simp [fitTrace, ih]

/-- Characterisation of when sequentially executing a statement list
yields an error: exactly when some statement errors and all statements
before it succeed, and the error returned is that statement's error,
unchanged. -/
theorem runSeq_error_iff (sem : α → Except ε Unit) (e : ε) :
    ∀ steps : List α, runSeq sem steps = Except.error e ↔
      ∃ l s r, steps = l ++ s :: r ∧ sem s = Except.error e ∧
        ∀ t ∈ l, sem t = Except.ok () := by
  intro steps
  induction steps with
  | nil =>
    simp only [runSeq]
    constructor
    · intro h; exact absurd h (by simp)
    · rintro ⟨l, s, r, hsteps, -, -⟩
      exact absurd hsteps.symm (List.append_ne_nil_of_right_ne_nil l (by simp))
  | cons a rest ih =>
    cases h : sem a with
    | error e' =>
      simp only [runSeq, h]
      constructor
      · intro he
        refine ⟨[], a, rest, rfl, ?_, by simp⟩
        rw [h]; exact he
      · rintro ⟨l, s, r, hsteps, hs, hl⟩
        cases l with
        | nil =>
          simp only [List.nil_append, List.cons.injEq] at hsteps
          rw [← hsteps.1, h] at hs
          exact hs
        | cons b l2 =>
          simp only [List.cons_append, List.cons.injEq] at hsteps
          obtain ⟨hab, -⟩ := hsteps
          subst hab
          have hba := hl a (List.mem_cons_self a l2)
          rw [h] at hba
          exact absurd hba (by simp)
    | ok u =>
      simp only [runSeq, h]
      rw [ih]
      constructor
      · rintro ⟨l, s, r, hsteps, hs, hl⟩
        refine ⟨a :: l, s, r, by simp [hsteps], hs, ?_⟩
        intro t ht
        rcases List.mem_cons.mp ht with h1 | h2
        · rw [h1, h]
        · exact hl t h2
      · rintro ⟨l, s, r, hsteps, hs, hl⟩
        cases l with
        | nil =>
          simp only [List.nil_append, List.cons.injEq] at hsteps
          rw [← hsteps.1, h] at hs
          exact absurd hs (by simp)
        | cons b l2 =>
          simp only [List.cons_append, List.cons.injEq] at hsteps
          refine ⟨l2, s, r, hsteps.2, hs, ?_⟩
          intro t ht
          exact hl t (List.mem_cons_of_mem b ht)

/-! ## Claims -/

/-- C9: for every image, the preprocessed tensor's channel axis is the
scaled, padded grayscale image replicated 3 times: every pixel's channel
list is `replicate 3` of its single grayscale value, so the 3-channel
input carries no information beyond the grayscale channel. -/
theorem c9_channels_replicated (img : RawImage) :
    preprocessImage img =
      (scaleImage (padImage img)).map (fun r => r.map (fun q => List.replicate 3 q)) := by
  simp [preprocessImage, repeatLast, expandLast, List.map_map, Function.comp_def]

/-- C4: the model is a single ordered sequential stack of 21 layers: a
resizing layer first, convolutional layers with 96, 256, 384, 384, 256
filters in that order, two local response normalization layers, two
max-pooling layers, one flatten layer, two dense layers of 4096 units
each immediately followed by a dropout of rate 0.5, and a final dense
layer of 10 units with softmax activation. -/
theorem c4_architecture (s : ℕ × ℕ × ℕ) :
    (buildModel s).head? = some (Layer.resizing 224 224 "bilinear" s) ∧
    convFilters (buildModel s) = [96, 256, 384, 384, 256] ∧
    (buildModel s).countP
      (fun l => match l with | Layer.lrn => true | _ => false) = 2 ∧
    (buildModel s).countP
      (fun l => match l with | Layer.maxPooling2D _ _ => true | _ => false) = 2 ∧
    (buildModel s).countP
      (fun l => match l with | Layer.flatten => true | _ => false) = 1 ∧
    denseUnits (buildModel s) = [(4096, Act.relu), (4096, Act.relu), (10, Act.softmax)] ∧
    dropoutRates (buildModel s) = [1/2, 1/2] ∧
    (buildModel s)[16]? = some (Layer.dense 4096 Act.relu) ∧
    (buildModel s)[17]? = some (Layer.dropout (1/2)) ∧
    (buildModel s)[18]? = some (Layer.dense 4096 Act.relu) ∧
    (buildModel s)[19]? = some (Layer.dropout (1/2)) ∧
    (buildModel s)[20]? = some (Layer.dense 10 Act.softmax) ∧
    (buildModel s).length = 21 :=
  ⟨rfl, rfl, rfl, rfl, rfl, rfl, rfl, rfl, rfl, rfl, rfl, rfl, rfl⟩

/-- C5: `model.fit` is invoked with `epochs=40` and `batch_size=64`,
constants of the script, and for every possible epoch dynamics the
training loop executes exactly 40 epochs and terminates. -/
theorem c5_fixed_epochs :
    scriptFitConfig.epochs = 40 ∧ scriptFitConfig.batchSize = 64 ∧
    ∀ (S : Type) (step : S → S) (s0 : S),
      (fitTrace step scriptFitConfig.epochs s0).length = 40 :=
  ⟨rfl, rfl, fun _ step s0 => fitTrace_length step 40 s0⟩

/-- C6: the script issues exactly four plotting calls: training loss and
validation loss on subplot 0, training accuracy and validation accuracy
on subplot 1, and nothing else; the keys plotted are exactly the metric
series the trainer's history records. -/
theorem c6_plots :
    scriptPlotCalls = [(0, "loss"), (0, "val_loss"), (1, "accuracy"), (1, "val_accuracy")] ∧
    (scriptPlotCalls.filter (fun pc => pc.1 == 0)).map Prod.snd = ["loss", "val_loss"] ∧
    (scriptPlotCalls.filter (fun pc => pc.1 == 1)).map Prod.snd = ["accuracy", "val_accuracy"] ∧
    scriptPlotCalls.length = 4 ∧
    (∀ k ∈ scriptPlotCalls.map Prod.snd, k ∈ recordedKeys) ∧
    (∀ k ∈ recordedKeys, k ∈ scriptPlotCalls.map Prod.snd) := by
  refine ⟨rfl, rfl, rfl, rfl, ?_, ?_⟩ <;> decide

/-- C1 (code evaluation at the failing configuration): the script's
statement sequence contains a `fit` call but no `evaluate` call — after
training it only plots, so no test metric on `(x_test, y_test)` is ever
produced, contradicting the script's own closing comment. -/
theorem c1_no_test_evaluation :
    Step.evaluate ∉ scriptSteps ∧ Step.fit ∈ scriptSteps ∧
    scriptSteps.getLast? = some Step.plot := by
  decide

/-- C8: the script installs no error handling: a run of the script
errors exactly when some framework call errors while all calls before it
succeed, and the error surfaced is that call's error, unchanged. -/
theorem c8_no_error_handling {ε : Type} (sem : Step → Except ε Unit) (e : ε) :
    runScript sem = Except.error e ↔
      ∃ l s r, scriptSteps = l ++ s :: r ∧ sem s = Except.error e ∧
        ∀ t ∈ l, sem t = Except.ok () :=
  runSeq_error_iff sem e scriptSteps

/-- For a 28-row image whose first row has 28 entries, `padImage` is two
zero rows of width 32, the padded original rows, and two more zero rows. -/
theorem padImage_eq (img : RawImage) (h0 : img.length = 28)
    (hr : ∀ r ∈ img, r.length = 28) :
    padImage img =
      List.replicate 2 (List.replicate 32 0) ++ img.map rowPad2 ++
        List.replicate 2 (List.replicate 32 0) := by
  cases img with
  | nil => simp at h0
  | cons a l =>
    have ha : a.length = 28 := hr a (List.mem_cons_self a l)
    simp [padImage, ha]

/-- The first two entries of a padded row are the added zeros. -/
theorem rowPad2_left (r : List ℕ) (j : ℕ) (hj : j < 2) :
    (rowPad2 r)[j]? = some 0 := by
  unfold rowPad2
  rw [List.append_assoc, List.getElem?_append_left (by simpa using hj),
    List.getElem?_replicate, if_pos hj]

/-- The middle of a padded row is the original row, shifted by 2. -/
theorem rowPad2_mid (r : List ℕ) (hr : r.length = 28) (j : ℕ)
    (h2 : 2 ≤ j) (hj : j < 30) :
    (rowPad2 r)[j]? = r[j - 2]? := by
  unfold rowPad2
  rw [List.append_assoc, List.getElem?_append_right (by simpa using h2),
    List.getElem?_append_left (by simp [hr]; omega)]
  simp

/-- The last two entries of a padded row are the added zeros. -/
theorem rowPad2_right (r : List ℕ) (hr : r.length = 28) (j : ℕ)
    (h2 : 30 ≤ j) (hj : j < 32) :
    (rowPad2 r)[j]? = some 0 := by
  unfold rowPad2
  rw [List.append_assoc, List.getElem?_append_right (by simpa using by omega),
    List.getElem?_append_right (by simp [hr]; omega), List.getElem?_replicate,
    if_pos (by simp [hr]; omega)]

/-- Rows 0 and 1 of the padded image are all-zero rows of width 32. -/
theorem padImage_row_top (img : RawImage) (h0 : img.length = 28)
    (hr : ∀ r ∈ img, r.length = 28) (i : ℕ) (hi : i < 2) :
    (padImage img)[i]? = some (List.replicate 32 0) := by
  rw [padImage_eq img h0 hr, List.append_assoc,
    List.getElem?_append_left (by simpa using hi),
    List.getElem?_replicate, if_pos hi]

/-- Rows 2–29 of the padded image are the original rows, padded. -/
theorem padImage_row_mid (img : RawImage) (h0 : img.length = 28)
    (hr : ∀ r ∈ img, r.length = 28) (i : ℕ) (h2 : 2 ≤ i) (hi : i < 30) :
    (padImage img)[i]? = img[i - 2]?.map rowPad2 := by
  rw [padImage_eq img h0 hr, List.append_assoc,
    List.getElem?_append_right (by simpa using h2),
    List.getElem?_append_left (by simp [h0]; omega)]
  simp

/-- Rows 30 and 31 of the padded image are all-zero rows of width 32. -/
theorem padImage_row_bot (img : RawImage) (h0 : img.length = 28)
    (hr : ∀ r ∈ img, r.length = 28) (i : ℕ) (h2 : 30 ≤ i) (hi : i < 32) :
    (padImage img)[i]? = some (List.replicate 32 0) := by
  rw [padImage_eq img h0 hr, List.append_assoc,
    List.getElem?_append_right (by simpa using by omega),
    List.getElem?_append_right (by simp [h0]; omega), List.getElem?_replicate,
    if_pos (by simp [h0]; omega)]

/-- Scaling commutes with indexing: the scaled entry at `(i, j)` is the
raw entry at `(i, j)` divided by 255. -/
theorem entry2_scaleImage (p : RawImage) (i j : ℕ) :
    entry2 (scaleImage p) i j = (entry2 p i j).map (fun (n : ℕ) => (n : ℚ) / 255) := by
  unfold entry2 scaleImage
  rw [List.getElem?_map]
  cases p[i]? with
  | none => rfl
  | some r =>
    show (r.map _)[j]? = (r[j]?).map _
    rw [List.getElem?_map]

/-- The preprocessing pipeline in closed form: every pixel of the scaled,
padded image replicated into 3 identical channels. -/
theorem preprocessImage_eq (img : RawImage) :
    preprocessImage img =
      (scaleImage (padImage img)).map (fun r => r.map (fun q => List.replicate 3 q)) := by
  simp [preprocessImage, repeatLast, expandLast, List.map_map, Function.comp_def]

/-- The batch preprocessing is the per-image preprocessing mapped over
the batch. -/
theorem preprocessBatch_eq_map (xs : List RawImage) :
    preprocessBatch xs = xs.map preprocessImage := by
  unfold preprocessBatch repeatBatch expandBatch scaleBatch padBatch
  rw [List.map_map, List.map_map, List.map_map]
  rfl

/-- Padding a rectangular 28×28 image yields a rectangular 32×32 image. -/
theorem rect2_padImage (img : RawImage) (h : rect2 img 28 28) :
    rect2 (padImage img) 32 32 := by
  obtain ⟨h0, hr⟩ := h
  rw [padImage_eq img h0 hr]
  constructor
  · simp [h0]
  · intro r hrow
    rcases List.mem_append.mp hrow with h1 | h1
    · rcases List.mem_append.mp h1 with h2 | h2
      · rw [List.eq_of_mem_replicate h2]; simp
      · obtain ⟨r0, hr0, rfl⟩ := List.mem_map.mp h2
        simp [rowPad2, hr (r0) hr0]
    · rw [List.eq_of_mem_replicate h1]; simp

/-- Scaling preserves the rectangular shape. -/
theorem rect2_scaleImage (p : RawImage) (h w : ℕ) (hp : rect2 p h w) :
    rect2 (scaleImage p) h w := by
  obtain ⟨h0, hr⟩ := hp
  constructor
  · unfold scaleImage; rw [List.length_map]; exact h0
  · intro r hrow
    unfold scaleImage at hrow
    obtain ⟨r0, hr0, rfl⟩ := List.mem_map.mp hrow
    rw [List.length_map]
    exact hr r0 hr0

/-- Preprocessing a rectangular 28×28 image yields a 32×32×3 tensor. -/
theorem rect3_preprocessImage (img : RawImage) (h : rect2 img 28 28) :
    rect3 (preprocessImage img) 32 32 3 := by
  have hs : rect2 (scaleImage (padImage img)) 32 32 :=
    rect2_scaleImage _ _ _ (rect2_padImage img h)
  obtain ⟨h0, hr⟩ := hs
  rw [preprocessImage_eq]
  constructor
  · simp [h0]
  · intro r hrow
    obtain ⟨r0, hr0, rfl⟩ := List.mem_map.mp hrow
    refine ⟨by simp [hr r0 hr0], ?_⟩
    intro ch hch
    obtain ⟨q, _, rfl⟩ := List.mem_map.mp hch
    simp

/-- A nonempty rectangular rank-3 tensor's shape triple is its extents. -/
theorem tensorShape3_of_rect3 (t : Tensor3) (h w c : ℕ) (hh : h ≠ 0)
    (hw : w ≠ 0) (ht : rect3 t h w c) : tensorShape3 t = (h, w, c) := by
  obtain ⟨h0, hr⟩ := ht
  cases t with
  | nil => simp at h0; omega
  | cons r t0 =>
    obtain ⟨hrw, hch⟩ := hr r (List.mem_cons_self r t0)
    cases r with
    | nil => simp at hrw; omega
    | cons ch r0 =>
      have hc : ch.length = c := (hch ch (List.mem_cons_self ch r0))
      simp [tensorShape3, h0, hrw, hc]

/-- Every entry of the padded image is 0 or an original entry, hence it
stays bounded by 255 when the original image is 8-bit. -/
theorem padImage_entries_le (img : RawImage)
    (hb : ∀ r ∈ img, ∀ p ∈ r, p ≤ 255) :
    ∀ r ∈ padImage img, ∀ p ∈ r, p ≤ 255 := by
  intro r hrow p hp
  simp only [padImage] at hrow
  rcases List.mem_append.mp hrow with h1 | h1
  · rcases List.mem_append.mp h1 with h2 | h2
    · rw [List.eq_of_mem_replicate h2] at hp
      rw [List.eq_of_mem_replicate hp]
      omega
    · obtain ⟨r0, hr0, rfl⟩ := List.mem_map.mp h2
      unfold rowPad2 at hp
      rcases List.mem_append.mp hp with h3 | h3
      · rcases List.mem_append.mp h3 with h4 | h4
        · rw [List.eq_of_mem_replicate h4]; omega
        · exact hb r0 hr0 p h4
      · rw [List.eq_of_mem_replicate h3]; omega
  · rw [List.eq_of_mem_replicate h1] at hp
    rw [List.eq_of_mem_replicate hp]
    omega

/-- Scaling an 8-bit image lands every value in `[0, 1]`. -/
theorem scaleImage_range (p : RawImage) (hb : ∀ r ∈ p, ∀ n ∈ r, n ≤ 255) :
    ∀ r ∈ scaleImage p, ∀ q ∈ r, 0 ≤ q ∧ q ≤ 1 := by
  intro r hrow q hq
  unfold scaleImage at hrow
  obtain ⟨r0, hr0, rfl⟩ := List.mem_map.mp hrow
  obtain ⟨n, hn, rfl⟩ := List.mem_map.mp hq
  refine ⟨by positivity, ?_⟩
  rw [div_le_one (by norm_num)]
  exact_mod_cast hb r0 hr0 n hn

/-- The 2-pixel border the padding adds is exactly 0 (before scaling). -/
theorem padImage_border (img : RawImage) (h0 : img.length = 28)
    (hr : ∀ r ∈ img, r.length = 28) (i j : ℕ) (hi : i < 32) (hj : j < 32)
    (hc : i < 2 ∨ 30 ≤ i ∨ j < 2 ∨ 30 ≤ j) :
    entry2 (padImage img) i j = some 0 := by
  unfold entry2
  have hz : (List.replicate 32 (0 : ℕ))[j]? = some 0 := by
    rw [List.getElem?_replicate, if_pos hj]
  have htop : i < 2 → (padImage img)[i]?.bind (fun r => r[j]?) = some 0 := by
    intro h2
    rw [padImage_row_top img h0 hr i h2]
    exact hz
  have hbot : 30 ≤ i → (padImage img)[i]?.bind (fun r => r[j]?) = some 0 := by
    intro h2
    rw [padImage_row_bot img h0 hr i h2 hi]
    exact hz
  have hmid : 2 ≤ i → i < 30 → (j < 2 ∨ 30 ≤ j) →
      (padImage img)[i]?.bind (fun r => r[j]?) = some 0 := by
    intro h2 h30 hcj
    rw [padImage_row_mid img h0 hr i h2 h30]
    have hilt : i - 2 < img.length := by omega
    rw [List.getElem?_eq_getElem hilt]
    have hrl : (img[i - 2]).length = 28 := hr _ (List.getElem_mem hilt)
    show (rowPad2 (img[i - 2]))[j]? = some 0
    rcases hcj with hcj | hcj
    · exact rowPad2_left _ j hcj
    · exact rowPad2_right _ hrl j hcj hj
  rcases hc with hc | hc | hc | hc
  · exact htop hc
  · exact hbot hc
  all_goals
    rcases Nat.lt_or_ge i 2 with h2 | h2
    · exact htop h2
    · rcases Nat.lt_or_ge i 30 with h30 | h30
      · exact hmid h2 h30 (by omega)
      · exact hbot h30

/-- Inside the border, the padded image is the original image shifted
by 2 in both coordinates. -/
theorem padImage_interior (img : RawImage) (h0 : img.length = 28)
    (hr : ∀ r ∈ img, r.length = 28) (i j : ℕ) (hi : i < 28) (hj : j < 28) :
    entry2 (padImage img) (i + 2) (j + 2) = entry2 img i j := by
  unfold entry2
  rw [padImage_row_mid img h0 hr (i + 2) (by omega) (by omega)]
  have h2 : i + 2 - 2 = i := by omega
  rw [h2]
  have hilt : i < img.length := by omega
  rw [List.getElem?_eq_getElem hilt]
  have hrl : (img[i]).length = 28 := hr _ (List.getElem_mem hilt)
  show (rowPad2 (img[i]))[j + 2]? = (img[i])[j]?
  rw [rowPad2_mid _ hrl (j + 2) (by omega) (by omega)]
  have h3 : j + 2 - 2 = j := by omega
  rw [h3]

/-- C10: after padding (applied before the division by 255), the 2-pixel
spatial border of every preprocessed image is exactly 0, every interior
pixel equals the original 8-bit value divided by 255, and every value of
the scaled image — and of the full 3-channel preprocessed tensor — lies
in the closed interval `[0, 1]`. -/
theorem c10_border_and_range (img : RawImage) (h0 : img.length = 28)
    (hr : ∀ r ∈ img, r.length = 28) (hb : ∀ r ∈ img, ∀ p ∈ r, p ≤ 255) :
    (∀ i j, i < 32 → j < 32 → (i < 2 ∨ 30 ≤ i ∨ j < 2 ∨ 30 ≤ j) →
      entry2 (scaleImage (padImage img)) i j = some 0) ∧
    (∀ i j, i < 28 → j < 28 →
      entry2 (scaleImage (padImage img)) (i + 2) (j + 2) =
        (entry2 img i j).map (fun (n : ℕ) => (n : ℚ) / 255)) ∧
    (∀ r ∈ scaleImage (padImage img), ∀ q ∈ r, 0 ≤ q ∧ q ≤ 1) ∧
    (∀ r ∈ preprocessImage img, ∀ c ∈ r, ∀ q ∈ c, 0 ≤ q ∧ q ≤ 1) := by
  have hrange : ∀ r ∈ scaleImage (padImage img), ∀ q ∈ r, 0 ≤ q ∧ q ≤ 1 :=
    scaleImage_range _ (padImage_entries_le img hb)
  refine ⟨?_, ?_, hrange, ?_⟩
  · intro i j hi hj hc
    rw [entry2_scaleImage, padImage_border img h0 hr i j hi hj hc]
    norm_num
  · intro i j hi hj
    rw [entry2_scaleImage, padImage_interior img h0 hr i j hi hj]
  · rw [preprocessImage_eq]
    intro r hrow c hc q hq
    obtain ⟨r0, hr0, rfl⟩ := List.mem_map.mp hrow
    obtain ⟨q0, hq0, rfl⟩ := List.mem_map.mp hc
    rw [List.eq_of_mem_replicate hq]
    exact hrange r0 hr0 q0 hq0

/-- Witness for C10 at the constant-17 28×28 image. -/
theorem c10_border_and_range_witness :
    ((List.replicate 28 (List.replicate 28 17) : RawImage).length = 28 ∧
     (∀ r ∈ (List.replicate 28 (List.replicate 28 17) : RawImage), r.length = 28) ∧
     (∀ r ∈ (List.replicate 28 (List.replicate 28 17) : RawImage), ∀ p ∈ r, p ≤ 255)) ∧
    ((∀ i j, i < 32 → j < 32 → (i < 2 ∨ 30 ≤ i ∨ j < 2 ∨ 30 ≤ j) →
      entry2 (scaleImage (padImage (List.replicate 28 (List.replicate 28 17)))) i j = some 0) ∧
    (∀ i j, i < 28 → j < 28 →
      entry2 (scaleImage (padImage (List.replicate 28 (List.replicate 28 17)))) (i + 2) (j + 2) =
        (entry2 (List.replicate 28 (List.replicate 28 17)) i j).map (fun (n : ℕ) => (n : ℚ) / 255)) ∧
    (∀ r ∈ scaleImage (padImage (List.replicate 28 (List.replicate 28 17))), ∀ q ∈ r, 0 ≤ q ∧ q ≤ 1) ∧
    (∀ r ∈ preprocessImage (List.replicate 28 (List.replicate 28 17)), ∀ c ∈ r, ∀ q ∈ c, 0 ≤ q ∧ q ≤ 1)) :=
  ⟨⟨by decide, by decide, by decide⟩,
   c10_border_and_range _ (by decide) (by decide) (by decide)⟩

/-- C2: every loaded 28×28 image preprocesses to a 32×32×3 tensor, and
that shape is exactly the `input_shape` the script declares on the
model's first (resizing) layer, so the preprocessed data matches the
model's expected input shape. -/
theorem c2_input_shape (xs : List RawImage) (hne : xs ≠ [])
    (h : ∀ img ∈ xs, rect2 img 28 28) :
    (∀ img ∈ xs, rect3 (preprocessImage img) 32 32 3 ∧
      tensorShape3 (preprocessImage img) = (32, 32, 3)) ∧
    declaredInputShape (buildModel (scriptInputShape (preprocessBatch xs))) =
      some (32, 32, 3) := by
  have key : ∀ img ∈ xs, rect3 (preprocessImage img) 32 32 3 ∧
      tensorShape3 (preprocessImage img) = (32, 32, 3) := by
    intro img him
    have h3 := rect3_preprocessImage img (h img him)
    exact ⟨h3, tensorShape3_of_rect3 _ 32 32 3 (by omega) (by omega) h3⟩
  refine ⟨key, ?_⟩
  cases xs with
  | nil => exact absurd rfl hne
  | cons a l =>
    have ha := key a (List.mem_cons_self a l)
    rw [preprocessBatch_eq_map]
    show some (tensorShape3 (preprocessImage a)) = some (32, 32, 3)
    rw [ha.2]

/-- Witness for C2 at a one-image batch (the all-zero 28×28 image). -/
theorem c2_input_shape_witness :
    (([List.replicate 28 (List.replicate 28 0)] : List RawImage) ≠ [] ∧
     (∀ img ∈ ([List.replicate 28 (List.replicate 28 0)] : List RawImage), rect2 img 28 28)) ∧
    ((∀ img ∈ ([List.replicate 28 (List.replicate 28 0)] : List RawImage),
      rect3 (preprocessImage img) 32 32 3 ∧
      tensorShape3 (preprocessImage img) = (32, 32, 3)) ∧
    declaredInputShape (buildModel (scriptInputShape
      (preprocessBatch [List.replicate 28 (List.replicate 28 0)]))) = some (32, 32, 3)) :=
  ⟨⟨by decide, by decide⟩, c2_input_shape _ (by decide) (by decide)⟩

/-- C3: the validation split (source lines 42–45) takes exactly the last
2000 preprocessed training examples and labels as the validation set,
leaves exactly the preceding examples as the new training set, the two
parts occupy disjoint index ranges, and concatenating the new training
set with the validation set reconstructs the original preprocessed
training set in order (for images and labels alike). -/
theorem c3_validation_split (xs : List Tensor3) (ys : List ℕ)
    (h2000 : 2000 ≤ xs.length) (hxy : ys.length = xs.length) :
    (takeLast 2000 xs).length = 2000 ∧
    (takeLast 2000 ys).length = 2000 ∧
    (dropLastN 2000 xs).length = xs.length - 2000 ∧
    (dropLastN 2000 ys).length = xs.length - 2000 ∧
    dropLastN 2000 xs ++ takeLast 2000 xs = xs ∧
    dropLastN 2000 ys ++ takeLast 2000 ys = ys ∧
    (∀ i, (takeLast 2000 xs)[i]? = xs[xs.length - 2000 + i]?) ∧
    (∀ i, (takeLast 2000 ys)[i]? = ys[xs.length - 2000 + i]?) ∧
    (∀ i, i < xs.length - 2000 → (dropLastN 2000 xs)[i]? = xs[i]?) ∧
    (∀ i, i < xs.length - 2000 → (dropLastN 2000 ys)[i]? = ys[i]?) := by
  refine ⟨?_, ?_, ?_, ?_, ?_, ?_, ?_, ?_, ?_, ?_⟩
  · unfold takeLast; rw [List.length_drop]; omega
  · unfold takeLast; rw [List.length_drop]; omega
  · unfold dropLastN; rw [List.length_take]; omega
  · unfold dropLastN; rw [List.length_take]; omega
  · exact List.take_append_drop _ xs
  · exact List.take_append_drop _ ys
  · intro i; unfold takeLast; rw [List.getElem?_drop]
  · intro i; unfold takeLast; rw [List.getElem?_drop, hxy]
  · intro i hi; unfold dropLastN; exact List.getElem?_take_of_lt hi
  · intro i hi
    unfold dropLastN
    exact List.getElem?_take_of_lt (by omega)

/-- Witness for C3 at a 2000-element batch of empty tensors with zero
labels. -/
theorem c3_validation_split_witness :
    (2000 ≤ (List.replicate 2000 emptyTensor).length ∧
     (List.replicate 2000 (0 : ℕ)).length = (List.replicate 2000 emptyTensor).length) ∧
    ((takeLast 2000 (List.replicate 2000 emptyTensor)).length = 2000 ∧
    (takeLast 2000 (List.replicate 2000 (0 : ℕ))).length = 2000 ∧
    (dropLastN 2000 (List.replicate 2000 emptyTensor)).length =
      (List.replicate 2000 emptyTensor).length - 2000 ∧
    (dropLastN 2000 (List.replicate 2000 (0 : ℕ))).length =
      (List.replicate 2000 emptyTensor).length - 2000 ∧
    dropLastN 2000 (List.replicate 2000 emptyTensor) ++
      takeLast 2000 (List.replicate 2000 emptyTensor) =
      List.replicate 2000 emptyTensor ∧
    dropLastN 2000 (List.replicate 2000 (0 : ℕ)) ++
      takeLast 2000 (List.replicate 2000 (0 : ℕ)) =
      List.replicate 2000 (0 : ℕ) ∧
    (∀ i, (takeLast 2000 (List.replicate 2000 emptyTensor))[i]? =
      (List.replicate 2000 emptyTensor)[(List.replicate 2000 emptyTensor).length - 2000 + i]?) ∧
    (∀ i, (takeLast 2000 (List.replicate 2000 (0 : ℕ)))[i]? =
      (List.replicate 2000 (0 : ℕ))[(List.replicate 2000 emptyTensor).length - 2000 + i]?) ∧
    (∀ i, i < (List.replicate 2000 emptyTensor).length - 2000 →
      (dropLastN 2000 (List.replicate 2000 emptyTensor))[i]? =
        (List.replicate 2000 emptyTensor)[i]?) ∧
    (∀ i, i < (List.replicate 2000 emptyTensor).length - 2000 →
      (dropLastN 2000 (List.replicate 2000 (0 : ℕ)))[i]? =
        (List.replicate 2000 (0 : ℕ))[i]?)) :=
  ⟨⟨by rw [List.length_replicate], by rw [List.length_replicate, List.length_replicate]⟩,
   c3_validation_split _ _ (by rw [List.length_replicate])
     (by rw [List.length_replicate, List.length_replicate])⟩

/-- C7: the image–label pairing is preserved by every preprocessing and
splitting step: each step keeps the number of images equal to the number
of labels for the train, validation, and test sets, each preprocessing
step acts index-wise on images and leaves the labels untouched, and
after the split the image at index `i` of each part is still paired with
the label loaded at the same original index. -/
theorem c7_pairing (xs : List RawImage) (ys : List ℕ)
    (xt : List RawImage) (yt : List ℕ)
    (hxy : xs.length = ys.length) (ht : xt.length = yt.length) :
    (padBatch xs).length = ys.length ∧
    (scaleBatch (padBatch xs)).length = ys.length ∧
    (expandBatch (scaleBatch (padBatch xs))).length = ys.length ∧
    (preprocessBatch xs).length = ys.length ∧
    (padBatch xt).length = yt.length ∧
    (scaleBatch (padBatch xt)).length = yt.length ∧
    (expandBatch (scaleBatch (padBatch xt))).length = yt.length ∧
    (preprocessBatch xt).length = yt.length ∧
    (∀ i : ℕ, (preprocessBatch xs)[i]? = xs[i]?.map preprocessImage) ∧
    (∀ i : ℕ, (preprocessBatch xt)[i]? = xt[i]?.map preprocessImage) ∧
    (takeLast 2000 (preprocessBatch xs)).length = (takeLast 2000 ys).length ∧
    (dropLastN 2000 (preprocessBatch xs)).length = (dropLastN 2000 ys).length ∧
    (∀ i, i < xs.length - 2000 →
      (dropLastN 2000 (preprocessBatch xs))[i]? = xs[i]?.map preprocessImage ∧
      (dropLastN 2000 ys)[i]? = ys[i]?) ∧
    (∀ i, (takeLast 2000 (preprocessBatch xs))[i]? =
        xs[xs.length - 2000 + i]?.map preprocessImage ∧
      (takeLast 2000 ys)[i]? = ys[xs.length - 2000 + i]?) := by
  have hpre : ∀ l : List RawImage, (preprocessBatch l).length = l.length := by
    intro l; rw [preprocessBatch_eq_map, List.length_map]
  have hidx : ∀ (l : List RawImage) (i : ℕ),
      (preprocessBatch l)[i]? = l[i]?.map preprocessImage := by
    intro l i; rw [preprocessBatch_eq_map, List.getElem?_map]
  refine ⟨?_, ?_, ?_, ?_, ?_, ?_, ?_, ?_, hidx xs, hidx xt, ?_, ?_, ?_, ?_⟩
  · unfold padBatch; rw [List.length_map]; exact hxy
  · unfold scaleBatch padBatch; rw [List.length_map, List.length_map]; exact hxy
  · unfold expandBatch scaleBatch padBatch
    rw [List.length_map, List.length_map, List.length_map]; exact hxy
  · rw [hpre]; exact hxy
  · unfold padBatch; rw [List.length_map]; exact ht
  · unfold scaleBatch padBatch; rw [List.length_map, List.length_map]; exact ht
  · unfold expandBatch scaleBatch padBatch
    rw [List.length_map, List.length_map, List.length_map]; exact ht
  · rw [hpre]; exact ht
  · unfold takeLast; rw [List.length_drop, List.length_drop, hpre, hxy]
  · unfold dropLastN; rw [List.length_take, List.length_take, hpre, hxy]
  · intro i hi
    constructor
    · unfold dropLastN
      rw [List.getElem?_take_of_lt (by rw [hpre]; omega)]
      exact hidx xs i
    · unfold dropLastN
      rw [List.getElem?_take_of_lt (by omega)]
  · intro i
    constructor
    · unfold takeLast
      rw [List.getElem?_drop, hpre]
      exact hidx xs _
    · unfold takeLast
      rw [List.getElem?_drop, hxy]

/-- Witness for C7 at a one-pixel train pair and an empty test pair. -/
theorem c7_pairing_witness :
    (([[[1]]] : List RawImage).length = ([5] : List ℕ).length ∧
     ([] : List RawImage).length = ([] : List ℕ).length) ∧
    ((padBatch [[[1]]]).length = ([5] : List ℕ).length ∧
    (scaleBatch (padBatch [[[1]]])).length = ([5] : List ℕ).length ∧
    (expandBatch (scaleBatch (padBatch [[[1]]]))).length = ([5] : List ℕ).length ∧
    (preprocessBatch [[[1]]]).length = ([5] : List ℕ).length ∧
    (padBatch ([] : List RawImage)).length = ([] : List ℕ).length ∧
    (scaleBatch (padBatch ([] : List RawImage))).length = ([] : List ℕ).length ∧
    (expandBatch (scaleBatch (padBatch ([] : List RawImage)))).length = ([] : List ℕ).length ∧
    (preprocessBatch ([] : List RawImage)).length = ([] : List ℕ).length ∧
    (∀ i : ℕ, (preprocessBatch [[[1]]])[i]? = ([[[1]]] : List RawImage)[i]?.map preprocessImage) ∧
    (∀ i : ℕ, (preprocessBatch ([] : List RawImage))[i]? =
      ([] : List RawImage)[i]?.map preprocessImage) ∧
    (takeLast 2000 (preprocessBatch [[[1]]])).length = (takeLast 2000 ([5] : List ℕ)).length ∧
    (dropLastN 2000 (preprocessBatch [[[1]]])).length = (dropLastN 2000 ([5] : List ℕ)).length ∧
    (∀ i, i < ([[[1]]] : List RawImage).length - 2000 →
      (dropLastN 2000 (preprocessBatch [[[1]]]))[i]? =
        ([[[1]]] : List RawImage)[i]?.map preprocessImage ∧
      (dropLastN 2000 ([5] : List ℕ))[i]? = ([5] : List ℕ)[i]?) ∧
    (∀ i : ℕ, (takeLast 2000 (preprocessBatch [[[1]]]))[i]? =
        ([[[1]]] : List RawImage)[([[[1]]] : List RawImage).length - 2000 + i]?.map preprocessImage ∧
      (takeLast 2000 ([5] : List ℕ))[i]? =
        ([5] : List ℕ)[([[[1]]] : List RawImage).length - 2000 + i]?)) :=
  ⟨⟨rfl, rfl⟩, c7_pairing [[[1]]] [5] [] [] rfl rfl⟩
